import Mathlib

/-!
Verification development for the quickslurm job lifecycle engine
(src/quickslurm/{data.py, utils.py, quickslurm.py}).

The Python source is shallowly embedded: pure helpers become Lean
functions, external-process invocations become oracle inputs (the
outcome of each subprocess call is a parameter of the model), and
Python exceptions become explicit result constructors.
-/

/-- data.py, CommandResult: immutable record of one external-process
invocation. -/
structure CommandResult where
  returncode : Int
  stdout : String
  stderr : String
  args : List String
deriving DecidableEq, Repr

/-- Python value that can sit in SubmitResult.returncode: the code stores
an int on most paths but the raw sacct ExitCode text (a string such as
"0:0") on the wait path. -/
inductive RetVal where
  | int (i : Int)
  | str (s : String)
deriving DecidableEq, Repr

/-- data.py, SubmitResult: outcome record returned by the public API. -/
structure SubmitResult where
  job_id : Nat
  state : String
  returncode : RetVal
  stdout : String
  stderr : String
  args : List String
deriving DecidableEq, Repr

/-- data.py, SubmitResult.__eq__: isinstance check plus comparison of the
job_id fields only; every other field is ignored. -/
def submitResultEq (a b : SubmitResult) : Bool :=
  a.job_id == b.job_id

/-- utils.py: value type of an options mapping entry
(Union[str, int, float, bool]; the float case is carried as its rendered
text, which is all the encoder uses). -/
inductive OptVal where
  | boolean (b : Bool)
  | str (s : String)
  | int (i : Int)
deriving DecidableEq, Repr

/-- Python str() applied to a non-bool option value. -/
def optValStr : OptVal → String
  | .boolean b => if b then "True" else "False"
  | .str s => s
  | .int i => toString i

/-- utils.py, _build_flag_kv: fold over the ordered option mapping,
appending no token for a false flag, a bare --key token for a true flag,
and a --key=value token otherwise; keys are stripped of surrounding
whitespace and underscores are replaced by dashes. -/
def _build_flag_kv (options : List (String × OptVal)) : List String :=
  options.foldl (fun args kv =>
    let key := kv.1.trim.replace "_" "-"
    match kv.2 with
    | .boolean v => if v then args ++ ["--" ++ key] else args
    | v => args ++ ["--" ++ key ++ "=" ++ optValStr v]) []

/-- Modelled from the spec wording of the Option Encoder contract
(section 4.1): the per-entry token list the encoder is claimed to emit.
Used only to compare against _build_flag_kv. -/
def encodeEntrySpec (kv : String × OptVal) : List String :=
  let key := kv.1.trim.replace "_" "-"
  match kv.2 with
  | .boolean false => []
  | .boolean true => ["--" ++ key]
  | v => ["--" ++ key ++ "=" ++ optValStr v]

/-- utils.py, _JOB_ID_RE plus _parse_job_id: the regular expression
(the literal marker, one or more whitespace characters, one or more
digits) is embedded as a character-level matcher; search tries each
start position from the left and the digit run is maximal. -/
def isPyWs (c : Char) : Bool :=
  c = ' ' || c = '\t' || c = '\n' || c = '\r' || c = '\x0b' || c = '\x0c'

/-- Consume an expected literal character sequence, returning the rest
of the input on success. -/
def stripLiteral : List Char → List Char → Option (List Char)
  | [], s => some s
  | _ :: _, [] => none
  | p :: ps, c :: cs => if c = p then stripLiteral ps cs else none

/-- Numeric value of a digit run, as Python int() of the matched group. -/
def digitsVal (ds : List Char) : Nat :=
  ds.foldl (fun n c => n * 10 + (c.toNat - 48)) 0

/-- Try the full pattern at the current position: literal marker, then
at least one whitespace character, then at least one digit. -/
def matchJobIdAt (s : List Char) : Option Nat :=
  match stripLiteral "Submitted batch job".data s with
  | none => none
  | some rest =>
    if (rest.takeWhile isPyWs).isEmpty then none
    else
      let rest2 := rest.dropWhile isPyWs
      let ds := rest2.takeWhile Char.isDigit
      if ds.isEmpty then none else some (digitsVal ds)

/-- re.search: first start position at which the whole pattern matches. -/
def searchJobId : List Char → Option Nat
  | [] => none
  | c :: cs =>
    match matchJobIdAt (c :: cs) with
    | some n => some n
    | none => searchJobId cs

/-- utils.py, _parse_job_id: parsed integer on a match, otherwise a
SlurmParseError carrying the raw text. -/
def _parse_job_id (s : String) : Except String Nat :=
  match searchJobId s.data with
  | some n => .ok n
  | none => .error s

theorem build_flag_kv_foldl_append (f : List String → String × OptVal → List String)
    (hf : ∀ acc kv, f acc kv = acc ++ encodeEntrySpec kv) :
    ∀ (l : List (String × OptVal)) (acc : List String),
      l.foldl f acc = acc ++ (l.map encodeEntrySpec).flatten := by
  intro l
  induction l with
  | nil => intro acc; simp
  | cons kv tl ih =>
    intro acc
    simp only [List.foldl_cons, List.map_cons, List.flatten, hf]
    rw [ih]
    simp [List.append_assoc]

theorem build_flag_kv_step (acc : List String) (kv : String × OptVal) :
    (fun args kv =>
      let key := (kv : String × OptVal).1.trim.replace "_" "-"
      match kv.2 with
      | .boolean v => if v then args ++ ["--" ++ key] else args
      | v => args ++ ["--" ++ key ++ "=" ++ optValStr v]) acc kv
      = acc ++ encodeEntrySpec kv := by
  rcases kv with ⟨k, v⟩
  cases v with
  | boolean b => cases b <;> simp [encodeEntrySpec]
  | str s => simp [encodeEntrySpec]
  | int i => simp [encodeEntrySpec]

/-- C7: the option encoder preserves input order and emits, per entry
with key normalized by trimming whitespace and mapping underscores to
dashes, no token for boolean false, exactly the token --key for boolean
true, and exactly the token --key=value for any non-boolean value; it is
a total function, so it never raises. -/
theorem build_flag_kv_spec (options : List (String × OptVal)) :
    _build_flag_kv options = (options.map encodeEntrySpec).flatten := by
  have h := build_flag_kv_foldl_append _ build_flag_kv_step options []
  simpa [_build_flag_kv] using h

/-- C8: the job-id extractor returns the integer parsed from the first
match of the marker followed by whitespace and digits, and fails with a
parse error carrying the raw text when no match exists; it parses the
full digit run (never a truncated value) and the first occurrence wins. -/
theorem parse_job_id_spec :
    _parse_job_id "Submitted batch job 12345\n" = .ok 12345 ∧
    _parse_job_id "no match" = .error "no match" ∧
    _parse_job_id "sbatch: Submitted batch job 77\nSubmitted batch job 88\n" = .ok 77 ∧
    _parse_job_id "Submitted batch job 00123junk" = .ok 123 := by
  refine ⟨?_, ?_, ?_, ?_⟩ <;> rfl

/-- C10: SubmitResult equality compares only the job_id fields; two
results with the same job_id are equal even when state, returncode,
stdout, stderr and args all differ. -/
theorem submit_result_eq_job_id_only :
    (∀ a b : SubmitResult, submitResultEq a b = true ↔ a.job_id = b.job_id) ∧
    submitResultEq
      (SubmitResult.mk 7 "COMPLETED" (.int 0) "out a" "err a" ["sbatch", "x.sh"])
      (SubmitResult.mk 7 "FAILED" (.str "1:0") "out b" "err b" ["srun", "y"]) = true := by
  constructor
  · intro a b
    simp [submitResultEq]
  · rfl

/-- Python dict lookup for an environment modelled as an association
list in which the first binding of a key is the visible one. -/
def dictLookup (d : List (String × String)) (k : String) : Option String :=
  (d.find? (fun p => p.1 == k)).map (fun p => p.2)

/-- Python dict.copy followed by dict.update: the override bindings
shadow the base bindings. -/
def dictUpdate (base ov : List (String × String)) : List (String × String) :=
  ov ++ base

/-- utils.py, _env_with: copy os.environ and, when the overrides mapping
is present and non-empty (truthy), update the copy with it. -/
def _env_with (osEnv : List (String × String))
    (overrides : Option (List (String × String))) : List (String × String) :=
  match overrides with
  | none => osEnv
  | some ov => if ov.isEmpty then osEnv else dictUpdate osEnv ov

/-- quickslurm.py: the environment handed to the external process. The
constructor stores base_env = _env_with(base overrides); each public call
passes env = _env_with(per-call overrides) to _run, and _run copies
base_env and, when env is truthy, updates the copy with env. -/
def mergedCallEnv (osEnv : List (String × String))
    (baseOv extraOv : Option (List (String × String))) : List (String × String) :=
  let baseEnv := _env_with osEnv baseOv
  let envArg := _env_with osEnv extraOv
  if envArg.isEmpty then baseEnv else dictUpdate baseEnv envArg

/-- Lookup in an optional override mapping. -/
def ovLookup (ov : Option (List (String × String))) (k : String) : Option String :=
  match ov with
  | none => none
  | some l => dictLookup l k

/-- C2 counterexample: with inherited environment binding K to "inh", a
base override binding K to "b" and no per-call override, the executed
environment maps K to the inherited value, not to the base override
value the claim requires. -/
theorem merged_env_base_override_clobbered :
    ovLookup (some [("K", "b")]) "K" = some "b" ∧
    ovLookup (none : Option (List (String × String))) "K" = none ∧
    dictLookup (mergedCallEnv [("K", "inh")] (some [("K", "b")]) none) "K" = some "inh" ∧
    (some "inh" : Option String) ≠ some "b" := by
  refine ⟨rfl, rfl, rfl, by decide⟩

theorem dictLookup_append (l1 l2 : List (String × String)) (k : String) :
    dictLookup (l1 ++ l2) k = (dictLookup l1 k).or (dictLookup l2 k) := by
  simp only [dictLookup, List.find?_append]
  cases h : l1.find? (fun p => p.1 == k) with
  | none => simp [Option.or]
  | some p => simp [Option.or]

theorem dictLookup_empty_none (l : List (String × String)) (k : String)
    (h : l.isEmpty = true) : dictLookup l k = none := by
  cases l with
  | nil => rfl
  | cons a t => simp [List.isEmpty] at h

theorem env_with_lookup (osEnv : List (String × String))
    (ov : Option (List (String × String))) (k : String) :
    dictLookup (_env_with osEnv ov) k = (ovLookup ov k).or (dictLookup osEnv k) := by
  cases ov with
  | none => simp [_env_with, ovLookup, Option.or]
  | some l =>
    simp only [_env_with, ovLookup]
    by_cases h : l.isEmpty
    · rw [if_pos h, dictLookup_empty_none l k h]
      simp [Option.or]
    · rw [if_neg h]
      exact dictLookup_append l osEnv k

/-- C2 amended: for every key, the executed environment takes the
per-call override value when bound, otherwise the inherited environment
value when bound, otherwise the base override value — the base override
is visible only for keys absent from both the inherited environment and
the per-call override map. -/
theorem merged_env_precedence (osEnv : List (String × String))
    (baseOv extraOv : Option (List (String × String))) (k : String) :
    dictLookup (mergedCallEnv osEnv baseOv extraOv) k
      = ((ovLookup extraOv k).or (dictLookup osEnv k)).or (ovLookup baseOv k) := by
  simp only [mergedCallEnv]
  by_cases h : (_env_with osEnv extraOv).isEmpty
  · rw [if_pos h]
    have h2 : dictLookup (_env_with osEnv extraOv) k = none :=
      dictLookup_empty_none _ k h
    rw [env_with_lookup] at h2
    have hex : ovLookup extraOv k = none := by
      cases hx : ovLookup extraOv k with
      | none => rfl
      | some v => rw [hx] at h2; simp [Option.or] at h2
    have hos : dictLookup osEnv k = none := by
      rw [hex] at h2; simpa [Option.or] using h2
    rw [env_with_lookup, hos, hex]
    simp only [Option.or]
    cases ovLookup baseOv k <;> rfl
  · rw [if_neg h, dictUpdate, dictLookup_append, env_with_lookup, env_with_lookup]
    cases hx : ovLookup extraOv k with
    | none =>
      simp only [Option.or]
      cases ho : dictLookup osEnv k <;> cases hb : ovLookup baseOv k <;> rfl
    | some v => rfl

/-- Outcome of one sacct invocation through subprocess.run (utils.py,
_sacct_cmd): either a completed process (run is called without check, so
a non-zero exit code still yields a CompletedProcess) or a raised
subprocess.TimeoutExpired (the call passes timeout=10). -/
inductive SacctOutcome where
  | completed (cp : CommandResult)
  | timedOut
deriving DecidableEq, Repr

/-- Python str.split with a one-character separator, at the character
level; splitting the empty text yields a one-element list holding the
empty chunk, exactly as in Python. -/
def splitOnChar (sep : Char) : List Char → List (List Char)
  | [] => [[]]
  | c :: cs =>
    let r := splitOnChar sep cs
    if c = sep then [] :: r
    else
      match r with
      | [] => [[c]]
      | h :: t => (c :: h) :: t

/-- Python str.strip: drop whitespace from both ends. -/
def trimChars (s : List Char) : List Char :=
  ((s.dropWhile isPyWs).reverse.dropWhile isPyWs).reverse

/-- utils.py, sacct_format: strip the text, take the first line, strip
it and split it on the pipe character. Python split never returns an
empty list, so the result always has at least one element. -/
def sacct_format (x : String) : List String :=
  (splitOnChar '|' (trimChars (((splitOnChar '\n' (trimChars x.data)).headD [])))).map
    (fun l => String.mk l)

/-- utils.py, _slurm_wait: the terminal-state list tested against the
first field of the formatted sacct output. -/
def terminalStates : List String :=
  ["COMPLETED", "FAILED", "CANCELLED", "TIMEOUT", "NODE_FAIL", "OUT_OF_MEMORY"]

/-- What one iteration of the _slurm_wait loop body does with the sacct
outcome. -/
inductive StepR where
  | retry
  | exc
  | term (st : String)
deriving DecidableEq, Repr

/-- One iteration of the _slurm_wait loop body: a TimeoutExpired from
_sacct_cmd is not among the caught exception classes (CalledProcessError,
IndexError) and escapes the loop; otherwise the formatted first field is
tested: empty list or a non-terminal first field leads to sleep-and-retry,
a terminal first field returns it. -/
def waitStep (o : SacctOutcome) : StepR :=
  match o with
  | .timedOut => .exc
  | .completed cp =>
    let state := sacct_format cp.stdout
    if state.isEmpty then .retry
    else if (state.headD "") ∈ terminalStates then .term (state.headD "")
    else .retry

/-- Result of the _slurm_wait model: returned without querying (job id
sentinel), finished after a number of queries and sleeps with the
observed terminal state, escaped with an uncaught exception, or still
polling when the iteration budget ran out (the code itself has no budget
and would keep looping). -/
inductive WaitResult where
  | noJob
  | finished (queries sleeps : Nat) (st : String)
  | raised
  | polling
deriving DecidableEq, Repr

/-- The while-True loop of _slurm_wait over the stream of sacct
outcomes, counting queries issued and sleeps executed. -/
def slurmWaitGo (query : Nat → SacctOutcome) : Nat → Nat → Nat → Nat → WaitResult
  | _, _, _, 0 => .polling
  | i, q, s, fuel + 1 =>
    match waitStep (query i) with
    | .exc => .raised
    | .term st => .finished (q + 1) s st
    | .retry => slurmWaitGo query (i + 1) (q + 1) (s + 1) fuel

/-- utils.py, _slurm_wait: return immediately for the sentinel job id
zero, otherwise loop over the query stream. -/
def _slurm_wait (query : Nat → SacctOutcome) (job_id : Nat) (fuel : Nat) : WaitResult :=
  if job_id = 0 then .noJob else slurmWaitGo query 0 0 0 fuel

theorem slurmWaitGo_first_terminal (query : Nat → SacctOutcome) :
    ∀ (n i q s fuel : Nat) (st : String),
      (∀ k, k < n → waitStep (query (i + k)) = .retry) →
      waitStep (query (i + n)) = .term st → n < fuel →
      slurmWaitGo query i q s fuel = .finished (q + n + 1) (s + n) st := by
  intro n
  induction n with
  | zero =>
    intro i q s fuel st _ ht hf
    cases fuel with
    | zero => exact absurd hf (by omega)
    | succ f =>
      simp only [slurmWaitGo]
      rw [show i + 0 = i from rfl] at ht
      rw [ht]
      rfl
  | succ m ih =>
    intro i q s fuel st hr ht hf
    cases fuel with
    | zero => exact absurd hf (by omega)
    | succ f =>
      simp only [slurmWaitGo]
      have h0 : waitStep (query i) = .retry := by
        have := hr 0 (by omega)
        simpa using this
      rw [h0]
      have hr2 : ∀ k, k < m → waitStep (query (i + 1 + k)) = .retry := by
        intro k hk
        have := hr (k + 1) (by omega)
        rwa [show i + (k + 1) = i + 1 + k by omega] at this
      have ht2 : waitStep (query (i + 1 + m)) = .term st := by
        rwa [show i + (m + 1) = i + 1 + m by omega] at ht
      have e1 : q + (m + 1) + 1 = q + 1 + m + 1 := by omega
      have e2 : s + (m + 1) = s + 1 + m := by omega
      rw [e1, e2]
      exact ih (i + 1) (q + 1) (s + 1) f st hr2 ht2 (by omega)

/-- C9: for a non-zero job id, the poller returns after the first query
whose parsed state is terminal, having issued exactly one query per
attempt and slept exactly once between consecutive queries; with the
query stream reporting PENDING, RUNNING, COMPLETED this instantiates to
exactly three queries, two sleeps, and observed state COMPLETED. -/
theorem slurm_wait_first_terminal (query : Nat → SacctOutcome)
    (job_id n fuel : Nat) (st : String)
    (h0 : job_id ≠ 0)
    (hr : ∀ k, k < n → waitStep (query k) = .retry)
    (ht : waitStep (query n) = .term st)
    (hf : n < fuel) :
    _slurm_wait query job_id fuel = .finished (n + 1) n st := by
  unfold _slurm_wait
  rw [if_neg h0]
  have := slurmWaitGo_first_terminal query n 0 0 0 fuel st
    (by intro k hk; simpa using hr k hk) (by simpa using ht) hf
  simpa using this

/-- Query stream reporting PENDING, then RUNNING, then COMPLETED. -/
def prcQuery : Nat → SacctOutcome := fun i =>
  .completed (CommandResult.mk 0
    (if i = 0 then "PENDING\n" else if i = 1 then "RUNNING\n" else "COMPLETED\n") "" [])

/-- Witness for C9: the PENDING, RUNNING, COMPLETED stream makes the
poller finish after exactly three queries and two sleeps with state
COMPLETED. -/
theorem slurm_wait_first_terminal_witness :
    _slurm_wait prcQuery 42 10 = .finished 3 2 "COMPLETED" :=
  slurm_wait_first_terminal prcQuery 42 2 10 "COMPLETED"
    (by decide) (by decide) (by decide) (by decide)

/-- C3: a query invocation that exceeds its subprocess timeout raises
TimeoutExpired, which is not among the exception classes the loop
catches; the failure escapes the poller to the caller instead of being
slept on and retried. -/
theorem slurm_wait_query_timeout_escapes :
    _slurm_wait (fun _ => SacctOutcome.timedOut) 42 10 = .raised := by
  rfl

/-- Outcome of the subprocess.run call inside Slurm._run: a completed
process, a raised TimeoutExpired carrying partial output, or a raised
FileNotFoundError. -/
inductive SpawnResult where
  | completed (cp : CommandResult)
  | timedOut (out err : String)
  | fileNotFound
deriving DecidableEq, Repr

/-- The exceptions Slurm._run can let escape: SlurmCommandError,
SlurmError, SlurmParseError, an uncaught subprocess TimeoutExpired from
the polling loop, and the ValueError from unpacking a short
_parse_result list into four variables. -/
inductive SlurmExc where
  | commandError (msg : String) (result : CommandResult)
  | slurmError (msg : String)
  | parseError (raw : String)
  | timeoutExpired
  | valueError
deriving DecidableEq, Repr

/-- Result of one Slurm._run call: a returned SubmitResult, a raised
exception, or still inside the unbounded polling loop when the
iteration budget ran out. -/
inductive RunResult where
  | ok (r : SubmitResult)
  | raised (e : SlurmExc)
  | polling
deriving DecidableEq, Repr

/-- Value returned by utils.py _parse_result: the first-line fields of
the final sacct query truncated to at most four, or the fallback
four-tuple produced when the query itself raised. -/
inductive ParseResultOut where
  | fields (l : List String)
  | fallback
deriving DecidableEq, Repr

/-- utils.py, _parse_result: format the final sacct query output and
keep at most four fields; any exception from the query is caught and
replaced by the tuple ("UNKNOWN", 0, "UNKNOWN", "UNKNOWN"). -/
def _parse_result (q : SacctOutcome) : ParseResultOut :=
  match q with
  | .completed cp => .fields ((sacct_format cp.stdout).take 4)
  | .timedOut => .fallback

/-- quickslurm.py, Slurm._run lines 423-425: the four-way unpacking of
the _parse_result value and the construction of the final SubmitResult;
a list that does not hold exactly four values makes the unpacking raise
ValueError. -/
def assembleWaitResult (job_id : Nat) (args : List String) (pr : ParseResultOut) : RunResult :=
  match pr with
  | .fallback => .ok (SubmitResult.mk job_id "UNKNOWN" (.int 0) "UNKNOWN" "UNKNOWN" args)
  | .fields l =>
    match l with
    | [st, ec, so, se] => .ok (SubmitResult.mk job_id st (.str ec) so se args)
    | _ => .raised .valueError

/-- quickslurm.py, Slurm._run: exception mapping for the spawn, the
check-and-batch escalation of a non-zero exit code, job-id parsing,
optional polling, and result assembly; sbatch and submit_inline reach
this with batch=True, srun and scancel with batch=False. -/
def _run (args : List String) (check wait batch : Bool) (spawn : SpawnResult)
    (query : Nat → SacctOutcome) (finalQuery : SacctOutcome) (fuel : Nat) : RunResult :=
  match spawn with
  | .timedOut out err =>
    .raised (.commandError "Command timed out" (CommandResult.mk (-1) out err args))
  | .fileNotFound => .raised (.slurmError "Command not found")
  | .completed cp =>
    if cp.returncode ≠ 0 then
      if check && batch then
        .raised (.commandError "Command failed"
          (CommandResult.mk cp.returncode cp.stdout cp.stderr args))
      else
        .ok (SubmitResult.mk 0 "UNKNOWN" (.int cp.returncode) cp.stdout cp.stderr args)
    else if batch then
      match _parse_job_id cp.stdout with
      | .error raw => .raised (.parseError raw)
      | .ok job_id =>
        if wait then
          match _slurm_wait query job_id fuel with
          | .raised => .raised .timeoutExpired
          | .polling => .polling
          | _ => assembleWaitResult job_id args (_parse_result finalQuery)
        else
          .ok (SubmitResult.mk job_id "UNKNOWN" (.int cp.returncode) cp.stdout cp.stderr args)
    else
      .ok (SubmitResult.mk 0 (if cp.returncode == 0 then "COMPLETE" else "FAILED")
        (.int cp.returncode) cp.stdout cp.stderr args)

/-- Modelled from the spec data model (section 3): the nine JobState
enumeration values. The Python code has no such enumeration; states are
plain strings. -/
def jobStateEnum : List String :=
  ["PENDING", "RUNNING", "COMPLETED", "FAILED", "CANCELLED", "TIMEOUT",
   "NODE_FAIL", "OUT_OF_MEMORY", "UNKNOWN"]

/-- The state text the wait path copies out of the final accounting
query: the first formatted field, or UNKNOWN when the query raised. -/
def finalQueryState (q : SacctOutcome) : String :=
  match _parse_result q with
  | .fallback => "UNKNOWN"
  | .fields l => l.headD ""

/-- C1 (code bug evaluation): with strict checking requested and a
non-zero exit code, a batch submission raises SlurmCommandError carrying
the full outcome, but an srun-shaped call (batch=False, as srun and
scancel invoke _run) returns a SubmitResult instead of raising, against
the claim and the srun and scancel docstrings. -/
theorem checked_failure_raises_only_for_batch :
    _run ["sbatch", "oops.sh"] true false true
      (.completed (CommandResult.mk 2 "" "boom" ["sbatch", "oops.sh"]))
      (fun _ => SacctOutcome.timedOut) SacctOutcome.timedOut 0
      = .raised (.commandError "Command failed"
          (CommandResult.mk 2 "" "boom" ["sbatch", "oops.sh"])) ∧
    _run ["srun", "false"] true false false
      (.completed (CommandResult.mk 2 "" "boom" ["srun", "false"]))
      (fun _ => SacctOutcome.timedOut) SacctOutcome.timedOut 0
      = .ok (SubmitResult.mk 0 "UNKNOWN" (.int 2) "" "boom" ["srun", "false"]) := by
  exact ⟨rfl, rfl⟩

/-- C4 (code bug evaluation): with wait enabled and a successful
submission, a final accounting query yielding empty output makes
_parse_result hand back a one-element field list, and the four-way
unpacking in Slurm._run raises ValueError instead of degrading the
state to UNKNOWN. -/
theorem wait_final_query_unparseable_raises :
    _run ["sbatch", "x.sh"] true true true
      (.completed (CommandResult.mk 0 "Submitted batch job 42\n" "" ["sbatch", "x.sh"]))
      (fun _ => .completed (CommandResult.mk 0 "COMPLETED\n" "" []))
      (.completed (CommandResult.mk 0 "" "" [])) 1
      = .raised .valueError := by
  rfl

/-- C6: when the submission tool exits non-zero and strict checking is
disabled, the outcome reports job id 0 and state UNKNOWN with the tool's
exit code, stdout and stderr, and no job id is parsed from the failed
output. -/
theorem run_checkless_failed_submission (args : List String) (cp : CommandResult)
    (wait : Bool) (query : Nat → SacctOutcome) (finalQuery : SacctOutcome) (fuel : Nat)
    (h : cp.returncode ≠ 0) :
    _run args false wait true (.completed cp) query finalQuery fuel
      = .ok (SubmitResult.mk 0 "UNKNOWN" (.int cp.returncode) cp.stdout cp.stderr args) := by
  simp only [_run]
  rw [if_pos h]
  simp

/-- Witness for C6: a failed submission whose stdout even contains a
parseable job id marker still reports the sentinel job id 0. -/
theorem run_checkless_failed_submission_witness :
    _run ["sbatch", "x.sh"] false false true
      (.completed (CommandResult.mk 1 "Submitted batch job 777\n" "E: nope" ["sbatch", "x.sh"]))
      (fun _ => SacctOutcome.timedOut) SacctOutcome.timedOut 0
      = .ok (SubmitResult.mk 0 "UNKNOWN" (.int 1) "Submitted batch job 777\n" "E: nope"
          ["sbatch", "x.sh"]) :=
  run_checkless_failed_submission _ _ _ _ _ _ (by decide)

/-- C5 counterexample: a successful srun call returns state COMPLETE,
which is not one of the nine JobState enumeration values. -/
theorem srun_success_state_not_in_enum :
    _run ["srun", "hostname"] true true false
      (.completed (CommandResult.mk 0 "hi\n" "" ["srun", "hostname"]))
      (fun _ => SacctOutcome.timedOut) SacctOutcome.timedOut 0
      = .ok (SubmitResult.mk 0 "COMPLETE" (.int 0) "hi\n" "" ["srun", "hostname"]) ∧
    "COMPLETE" ∉ jobStateEnum := by
  exact ⟨rfl, by decide⟩

/-- The state text _parse_result hands to the unpacking site: UNKNOWN
from the fallback tuple, or the first field. -/
def parseFieldsHead (pr : ParseResultOut) : String :=
  match pr with
  | .fallback => "UNKNOWN"
  | .fields l => l.headD ""

theorem assemble_state_characterization (job_id : Nat) (args : List String)
    (pr : ParseResultOut) (r : SubmitResult)
    (h : assembleWaitResult job_id args pr = .ok r) :
    r.state = "UNKNOWN" ∨ r.state = parseFieldsHead pr := by
  cases pr with
  | fallback =>
    left
    have := (RunResult.ok.injEq _ _).mp h
    rw [← this]
  | fields l =>
    right
    show r.state = l.headD ""
    rcases l with _ | ⟨st, l⟩
    · exact absurd h (by simp [assembleWaitResult])
    rcases l with _ | ⟨ec, l⟩
    · exact absurd h (by simp [assembleWaitResult])
    rcases l with _ | ⟨so, l⟩
    · exact absurd h (by simp [assembleWaitResult])
    rcases l with _ | ⟨se, l⟩
    · exact absurd h (by simp [assembleWaitResult])
    rcases l with _ | ⟨x, l⟩
    · have := (RunResult.ok.injEq _ _).mp h
      rw [← this]
      rfl
    · exact absurd h (by simp [assembleWaitResult])

/-- C5 amended: every SubmitResult produced by _run has state UNKNOWN,
state COMPLETE (successful srun or scancel), or the verbatim first field
of the final accounting query; it lies in the nine-value enumeration
only when that field does. -/
theorem run_state_characterization (args : List String) (check wait batch : Bool)
    (spawn : SpawnResult) (query : Nat → SacctOutcome) (finalQuery : SacctOutcome)
    (fuel : Nat) (r : SubmitResult)
    (h : _run args check wait batch spawn query finalQuery fuel = .ok r) :
    r.state = "UNKNOWN" ∨ r.state = "COMPLETE" ∨ r.state = finalQueryState finalQuery := by
  cases spawn with
  | timedOut out err => exact absurd h (by simp [_run])
  | fileNotFound => exact absurd h (by simp [_run])
  | completed cp =>
    simp only [_run] at h
    by_cases hrc : cp.returncode ≠ 0
    · rw [if_pos hrc] at h
      by_cases hcb : (check && batch) = true
      · rw [if_pos hcb] at h
        exact absurd h (by simp)
      · rw [if_neg hcb] at h
        left
        have := (RunResult.ok.injEq _ _).mp h
        rw [← this]
    · rw [if_neg hrc] at h
      by_cases hb : batch = true
      · rw [if_pos hb] at h
        cases hp : _parse_job_id cp.stdout with
        | error raw => simp [hp] at h
        | ok job_id =>
          simp only [hp] at h
          by_cases hw : wait = true
          · rw [if_pos hw] at h
            cases hwr : _slurm_wait query job_id fuel with
            | raised => simp [hwr] at h
            | polling => simp [hwr] at h
            | noJob =>
              simp only [hwr] at h
              have h2 := assemble_state_characterization job_id args (_parse_result finalQuery) r h
              rcases h2 with h1 | h1
              · exact Or.inl h1
              · right; right
                rw [h1]
                rfl
            | finished q s st =>
              simp only [hwr] at h
              have h2 := assemble_state_characterization job_id args (_parse_result finalQuery) r h
              rcases h2 with h1 | h1
              · exact Or.inl h1
              · right; right
                rw [h1]
                rfl
          · rw [if_neg hw] at h
            left
            have := (RunResult.ok.injEq _ _).mp h
            rw [← this]
      · rw [if_neg hb] at h
        right; left
        have hz : cp.returncode = 0 := by omega
        rw [hz] at h
        have := (RunResult.ok.injEq _ _).mp h
        rw [← this]
        rfl

/-- Witness for the amended C5: a concrete successful srun call yields a
state covered by the characterization. -/
theorem run_state_characterization_witness :
    let r := SubmitResult.mk 0 "COMPLETE" (.int 0) "hi\n" "" ["srun", "hostname"]
    r.state = "UNKNOWN" ∨ r.state = "COMPLETE" ∨ r.state = finalQueryState SacctOutcome.timedOut :=
  run_state_characterization ["srun", "hostname"] true true false
    (.completed (CommandResult.mk 0 "hi\n" "" ["srun", "hostname"]))
    (fun _ => SacctOutcome.timedOut) SacctOutcome.timedOut 0
    (SubmitResult.mk 0 "COMPLETE" (.int 0) "hi\n" "" ["srun", "hostname"]) rfl
